import Mathlib

/-!
Shallow embedding of the membership-augmentation tool
(`augment_data.py` and `austin_city_api.py`).

A CSV row is a Python `dict` read by `csv.DictReader`: an ordered mapping
from column name to cell value, where insertion order of keys is
preserved, assigning to an existing key keeps its position, and assigning
to a fresh key appends it at the end.  We model a row as an association
list `Row`.  Cell values are either strings (everything read from the CSV)
or integers (the council district the code stores via `int(...)`), so we
model them with the inductive `Value`, which lets the development
distinguish the integer `7` from the string `"7"`.

The remote Austin service is modelled as an oracle `AustinDataService`
mapping each request to the already-parsed response payload; the
claims are about how the client and the augmentation loop consume those
payloads.  The JSONP wrapper-stripping of `geocode_address`, which works
on the raw response text, is modelled separately on the response body as
a list of characters (`jsonpStrip`).
-/

/-- A Python cell value: a string (as read from the CSV) or an integer
(as produced by `int(district)` in `get_council_district`). -/
inductive Value where
  | str (s : String)
  | int (n : Int)
  deriving DecidableEq, Repr

/-- Python `str()` applied to a cell value, as an f-string would format it. -/
def Value.fmt : Value → String
  | .str s => s
  | .int n => toString n

/-- A CSV row: a Python dict as an insertion-ordered association list. -/
abbrev Row := List (String × Value)

/-- The ordered key list of a row (`row.keys()`). -/
def Row.keys (r : Row) : List String := r.map Prod.fst

/-- Look up the value stored under a key (first occurrence). -/
def Row.find? : Row → String → Option Value
  | [], _ => none
  | (k', v) :: rest, k => if k' = k then some v else Row.find? rest k

/-- Python `k in row`: key membership. -/
def Row.hasKey (r : Row) (k : String) : Bool := (r.find? k).isSome

/-- Python `row.get(k, default)` followed by f-string formatting. -/
def Row.pyGet (r : Row) (k : String) (dflt : String) : String :=
  match r.find? k with
  | some v => v.fmt
  | none => dflt

/-- Python `row[k] = v`: replace the value in place if the key exists
(keeping its position), otherwise append the pair at the end. -/
def Row.set : Row → String → Value → Row
  | [], k, v => [(k, v)]
  | (k', v') :: rest, k, v =>
      if k' = k then (k, v) :: rest else (k', v') :: Row.set rest k v

/-- `Location` dataclass of `austin_city_api.py` (two floats; no
arithmetic is ever performed on them, so we carry them as rationals). -/
structure Location where
  x : ℚ
  y : ℚ
  deriving DecidableEq, Repr

/-- `Extent` dataclass of `austin_city_api.py`. -/
structure Extent where
  xmin : ℚ
  ymin : ℚ
  xmax : ℚ
  ymax : ℚ
  deriving DecidableEq, Repr

/-- `GeocodedAddress` dataclass of `austin_city_api.py`. -/
structure GeocodedAddress where
  address : String
  location : Location
  score : Int
  extent : Extent
  deriving DecidableEq, Repr

/-- One entry of the `candidates` list of a parsed geocode payload. -/
structure Candidate where
  address : String
  location : Location
  score : Int
  extent : Extent
  deriving DecidableEq, Repr

/-- The parsed JSON payload of the geocoding endpoint. -/
structure GeocodeResponse where
  candidates : List Candidate
  deriving DecidableEq, Repr

/-- One entry of the `features` list of the district endpoint's payload;
`council_district` is its `attributes["COUNCIL_DISTRICT"]` after `int`. -/
structure Feature where
  council_district : Int
  deriving DecidableEq, Repr

/-- The parsed JSON payload of the district endpoint. -/
structure DistrictResponse where
  features : List Feature
  deriving DecidableEq, Repr

/-- The remote service as an oracle: the parsed payload each request
would receive.  `geocodeResp` is keyed by the `SingleLine` address sent,
`districtResp` by the point geometry sent. -/
structure AustinDataService where
  geocodeResp : String → GeocodeResponse
  districtResp : Location → DistrictResponse

/-- `AustinDataService.geocode_address`: if the payload's candidate list
is non-empty, build a `GeocodedAddress` from the first candidate;
otherwise return `None`. -/
def geocode_address (svc : AustinDataService) (address : String) :
    Option GeocodedAddress :=
  match (svc.geocodeResp address).candidates with
  | [] => none
  | c :: _ => some ⟨c.address, c.location, c.score, c.extent⟩

/-- `AustinDataService.get_council_district`: if the payload's feature
list is non-empty, return the integer district attribute of the first
feature; otherwise return `None`. -/
def get_council_district (svc : AustinDataService) (loc : Location) :
    Option Int :=
  match (svc.districtResp loc).features with
  | [] => none
  | f :: _ => some f.council_district

/-- `assemble_address` of `augment_data.py`: the f-string over
`row.get(field, '')` for the six address fields. -/
def assemble_address (row : Row) : String :=
  row.pyGet "address1" "" ++ " " ++ row.pyGet "address2" "" ++ ", " ++
    row.pyGet "city" "" ++ ", " ++ row.pyGet "state" "" ++ ", " ++
    row.pyGet "zip" "" ++ ", " ++ row.pyGet "country" ""

/-- The address template exactly as the specification words it: the
literal pattern address1, space, address2, then city, state, zip and
country each preceded by a comma and a space, absent fields replaced by
the empty string (spec-side definition for the refinement claim). -/
def specAddressTemplate (a1 a2 city state zip country : String) : String :=
  a1 ++ " " ++ a2 ++ ", " ++ city ++ ", " ++ state ++ ", " ++ zip ++
    ", " ++ country

/-- `add_city_council_district` of `augment_data.py`.  Returns the row
after the call together with the number of geocoding requests performed
(`geocode_address` is called exactly once unless the guard returns
early). -/
def add_city_council_district (svc : AustinDataService) (row : Row) :
    Row × Nat :=
  if row.hasKey "city_council_district" then (row, 0)
  else
    match geocode_address svc (assemble_address row) with
    | some g =>
        let row1 := row.set "geocoded_address" (Value.str g.address)
        (row1.set "city_council_district"
          (match get_council_district svc g.location with
           | some d => Value.int d
           | none => Value.str "Unknown"), 1)
    | none =>
        ((row.set "geocoded_address" (Value.str "")).set
          "city_council_district" (Value.str ""), 1)

/-- One observable step of the main loop: processing row `i`, or the
`time.sleep(interval)` call. -/
inductive Event where
  | processRow (i : Nat)
  | sleep (seconds : ℚ)
  deriving DecidableEq, Repr

/-- The argparse default for `--interval` (30 seconds). -/
def defaultInterval : ℚ := 30

/-- The `for row in data` loop of `main`: each row is passed to
`add_city_council_district` and then `time.sleep(interval)` runs, before
the next row.  Returns the processed rows (mutated in place in the
source) and the trace of events, with `i` the index of the first row. -/
def mainLoop (svc : AustinDataService) (interval : ℚ) :
    List Row → Nat → List Row × List Event
  | [], _ => ([], [])
  | row :: rest, i =>
      let processed := (add_city_council_district svc row).1
      let tail := mainLoop svc interval rest (i + 1)
      (processed :: tail.1,
       Event.processRow i :: Event.sleep interval :: tail.2)

/-- The rows `main` holds in `data` after the loop, which it then writes. -/
def mainRows (svc : AustinDataService) (interval : ℚ) (data : List Row) :
    List Row :=
  (mainLoop svc interval data 0).1

/-- The event trace of `main`'s loop. -/
def mainTrace (svc : AustinDataService) (interval : ℚ) (data : List Row) :
    List Event :=
  (mainLoop svc interval data 0).2

/-- `fieldnames = data[0].keys()` as passed to `csv.DictWriter` after the
loop: the key list of the first processed row. -/
def outputFieldnames (svc : AustinDataService) (interval : ℚ)
    (data : List Row) : List String :=
  Row.keys ((mainRows svc interval data).headD [])

/-- The `response.text.startswith("callback(")` check of
`geocode_address` (the body is the response text as characters). -/
def callbackToken : List Char := "callback(".toList

/-- The JSONP strip `response.text[response.text.index("(") + 1 : -2]`:
scan for the first opening parenthesis; on finding it at index `i`, the
Python slice keeps the characters after it up to two before the end of
the whole text; `index` raises `ValueError` (modelled as `none`) when no
parenthesis occurs. -/
def jsonpStrip : List Char → Option (List Char)
  | [] => none
  | c :: rest =>
      if c = '(' then some (rest.take (rest.length - 2))
      else jsonpStrip rest

/-- The parsing stage of `geocode_address` on a raw response body:
whether the callback-wrapper warning fires, and the text handed to
`json.loads`.  The strip runs whether or not the warning fired. -/
def geocodeParse (body : List Char) : Bool × Option (List Char) :=
  (!(callbackToken.isPrefixOf body), jsonpStrip body)

/-- A service whose geocode payloads have no candidates and whose
district payloads have no features. -/
def emptySvc : AustinDataService :=
  ⟨fun _ => ⟨[]⟩, fun _ => ⟨[]⟩⟩

/-- A service returning one geocode candidate and two district features,
with districts 3 and 7 in that order. -/
def svcTwoFeatures : AustinDataService :=
  ⟨fun _ => ⟨[⟨"123 MAIN ST", ⟨1, 2⟩, 100, ⟨0, 0, 0, 0⟩⟩]⟩,
   fun _ => ⟨[⟨3⟩, ⟨7⟩]⟩⟩

/-- A service returning one geocode candidate and one district feature
whose district is 7. -/
def svcSeven : AustinDataService :=
  ⟨fun _ => ⟨[⟨"123 MAIN ST", ⟨1, 2⟩, 100, ⟨0, 0, 0, 0⟩⟩]⟩,
   fun _ => ⟨[⟨7⟩]⟩⟩

/-- A service returning one geocode candidate but no district features. -/
def svcNoDistrict : AustinDataService :=
  ⟨fun _ => ⟨[⟨"123 MAIN ST", ⟨1, 2⟩, 100, ⟨0, 0, 0, 0⟩⟩]⟩,
   fun _ => ⟨[]⟩⟩

/-! ### Helper lemmas about `Row` operations -/

@[simp]
theorem Row.keys_nil : Row.keys [] = [] := rfl

@[simp]
theorem Row.keys_cons (p : String × Value) (r : Row) :
    Row.keys (p :: r) = p.1 :: r.keys := rfl

theorem Row.find?_set_self (r : Row) (k : String) (v : Value) :
    (r.set k v).find? k = some v := by
  induction r with
  | nil => simp [Row.set, Row.find?]
  | cons p rest ih =>
      by_cases h : p.1 = k
      · simp [Row.set, h, Row.find?]
      · simp [Row.set, h, Row.find?, ih]

theorem Row.find?_set_ne (r : Row) (k k' : String) (v : Value)
    (h : k' ≠ k) : (r.set k v).find? k' = r.find? k' := by
  have hne : ¬k = k' := fun hh => h (Eq.symm hh)
  induction r with
  | nil => simp [Row.set, Row.find?, hne]
  | cons p rest ih =>
      by_cases hk : p.1 = k
      · have hp : ¬p.1 = k' := by rw [hk]; exact hne
        simp [Row.set, hk, Row.find?, hne, hp]
      · by_cases hk' : p.1 = k'
        · simp [Row.set, hk, Row.find?, hk', h]
        · simp [Row.set, hk, Row.find?, hk', ih]

theorem Row.find?_eq_none_of_not_mem_keys (r : Row) (k : String)
    (h : k ∉ r.keys) : r.find? k = none := by
  induction r with
  | nil => rfl
  | cons p rest ih =>
      simp only [Row.keys_cons, List.mem_cons, not_or] at h
      have hp : ¬p.1 = k := fun hh => h.1 (Eq.symm hh)
      simp [Row.find?, hp, ih h.2]

theorem Row.keys_set_of_not_mem (r : Row) (k : String) (v : Value)
    (h : k ∉ r.keys) : (r.set k v).keys = r.keys ++ [k] := by
  induction r with
  | nil => simp [Row.set]
  | cons p rest ih =>
      simp only [Row.keys_cons, List.mem_cons, not_or] at h
      have hp : ¬p.1 = k := fun hh => h.1 (Eq.symm hh)
      simp [Row.set, hp, ih h.2]

theorem Row.hasKey_of_find?_some (r : Row) (k : String) (v : Value)
    (h : r.find? k = some v) : r.hasKey k = true := by
  simp [Row.hasKey, h]

theorem Row.hasKey_eq_false_of_not_mem_keys (r : Row) (k : String)
    (h : k ∉ r.keys) : r.hasKey k = false := by
  simp [Row.hasKey, Row.find?_eq_none_of_not_mem_keys r k h]

/-- If the guard key is present, `add_city_council_district` is the
identity and performs no geocoding request. -/
theorem add_ccd_skip (svc : AustinDataService) (row : Row) (v : Value)
    (h : row.find? "city_council_district" = some v) :
    add_city_council_district svc row = (row, 0) := by
  simp [add_city_council_district, Row.hasKey_of_find?_some row _ v h]

/-- Keys after augmentation of a row lacking both added columns. -/
theorem keys_add_ccd (svc : AustinDataService) (row : Row)
    (hga : "geocoded_address" ∉ row.keys)
    (hcd : "city_council_district" ∉ row.keys) :
    ((add_city_council_district svc row).1).keys =
      row.keys ++ ["geocoded_address", "city_council_district"] := by
  have hguard := Row.hasKey_eq_false_of_not_mem_keys row _ hcd
  have hkeys1 : ∀ w : Value,
      (row.set "geocoded_address" w).keys = row.keys ++ ["geocoded_address"] :=
    fun w => Row.keys_set_of_not_mem row _ w hga
  have hcd1 : ∀ w : Value,
      "city_council_district" ∉ (row.set "geocoded_address" w).keys := by
    intro w
    rw [hkeys1 w]
    simp [hcd]
  cases hg : geocode_address svc (assemble_address row) with
  | none =>
      simp only [add_city_council_district, hguard, Bool.false_eq_true,
        if_false, hg]
      rw [Row.keys_set_of_not_mem _ _ _ (hcd1 _), hkeys1]
      simp
  | some g =>
      simp only [add_city_council_district, hguard, Bool.false_eq_true,
        if_false, hg]
      rw [Row.keys_set_of_not_mem _ _ _ (hcd1 _), hkeys1]
      simp

/-- The loop processes the rows positionally: its row output is the map
of `add_city_council_district` over the input. -/
theorem mainLoop_rows (svc : AustinDataService) (interval : ℚ) :
    ∀ (rows : List Row) (i : Nat),
      (mainLoop svc interval rows i).1 =
        rows.map (fun r => (add_city_council_district svc r).1) := by
  intro rows
  induction rows with
  | nil => intro i; rfl
  | cons r rest ih => intro i; simp [mainLoop, ih]

/-- In the loop's trace, the step processing the `i`-th remaining row
sits at position `2 * i` and is immediately followed by the sleep. -/
theorem mainLoop_trace_get? (svc : AustinDataService) (interval : ℚ) :
    ∀ (rows : List Row) (idx i : Nat), i < rows.length →
      (mainLoop svc interval rows idx).2.get? (2 * i) =
          some (Event.processRow (idx + i)) ∧
        (mainLoop svc interval rows idx).2.get? (2 * i + 1) =
          some (Event.sleep interval) := by
  intro rows
  induction rows with
  | nil => intro idx i h; exact absurd h (by simp)
  | cons r rest ih =>
      intro idx i h
      cases i with
      | zero => simp [mainLoop]
      | succ j =>
          have hj : j < rest.length := by
            simpa [Nat.succ_lt_succ_iff] using h
          have := ih (idx + 1) j hj
          constructor
          · have h2 : 2 * (j + 1) = (2 * j) + 1 + 1 := by ring
            rw [h2]
            simp only [mainLoop, List.get?_cons_succ]
            rw [this.1]
            have : idx + 1 + j = idx + (j + 1) := by ring
            rw [this]
          · have h2 : 2 * (j + 1) + 1 = (2 * j + 1) + 1 + 1 := by ring
            rw [h2]
            simp only [mainLoop, List.get?_cons_succ]
            exact this.2

/-- Scanning past a parenthesis-free portion of the body, `jsonpStrip`
keeps the characters strictly after the first opening parenthesis and
drops the final two characters of the whole body. -/
theorem jsonpStrip_split (pre post : List Char) (h : '(' ∉ pre) :
    jsonpStrip (pre ++ '(' :: post) = some (post.take (post.length - 2)) := by
  induction pre with
  | nil => simp [jsonpStrip]
  | cons c cs ih =>
      simp only [List.mem_cons, not_or] at h
      have hc : ¬c = '(' := fun hh => h.1 (Eq.symm hh)
      simp [jsonpStrip, hc, ih h.2]

/-- Lookup after a `row[k] = v` assignment, combined form. -/
theorem Row.find?_set (r : Row) (k k' : String) (v : Value) :
    (r.set k v).find? k' = if k' = k then some v else r.find? k' := by
  by_cases h : k' = k
  · rw [if_pos h, h]
    exact Row.find?_set_self r k v
  · rw [if_neg h]
    exact Row.find?_set_ne r k k' v h

/-! ### Claim theorems -/

/-- Claim C1: for every row already containing a non-empty
`city_council_district` value, `add_city_council_district` returns with
the row unchanged (no key added, no value modified) and performs no
geocoding request. -/
theorem claim1_skip_row_with_nonempty_district (svc : AustinDataService)
    (row : Row) (v : Value)
    (h1 : row.find? "city_council_district" = some v)
    (_h2 : v ≠ Value.str "") :
    (add_city_council_district svc row).1 = row ∧
      (add_city_council_district svc row).2 = 0 := by
  rw [add_ccd_skip svc row v h1]
  exact ⟨rfl, rfl⟩

/-- Witness for claim C1 at a concrete row holding district `"8"`. -/
theorem claim1_witness :
    Row.find? [("city_council_district", Value.str "8")]
        "city_council_district" = some (Value.str "8") ∧
      Value.str "8" ≠ Value.str "" ∧
      (add_city_council_district emptySvc
          [("city_council_district", Value.str "8")]).1 =
        [("city_council_district", Value.str "8")] :=
  ⟨by decide, by decide,
    (claim1_skip_row_with_nonempty_district emptySvc
      [("city_council_district", Value.str "8")] (Value.str "8")
      (by decide) (by decide)).1⟩

/-- Claim C3: `assemble_address` produces exactly the literal template
of the specification — address1, space, address2, comma-space city,
comma-space state, comma-space zip, comma-space country — for every row
and every combination of present and absent fields, an absent field
contributing the empty string. -/
theorem claim3_assemble_address_template (row : Row) :
    assemble_address row =
        specAddressTemplate (row.pyGet "address1" "") (row.pyGet "address2" "")
          (row.pyGet "city" "") (row.pyGet "state" "") (row.pyGet "zip" "")
          (row.pyGet "country" "") ∧
      ∀ k : String, row.find? k = none → row.pyGet k "" = "" :=
  ⟨rfl, fun _ hk => by simp [Row.pyGet, hk]⟩

/-- Witness for claim C3 at a row with only `address1` and `city`. -/
theorem claim3_witness :
    Row.find? [("address1", Value.str "100 Congress Ave"),
        ("city", Value.str "Austin")] "state" = none ∧
      Row.pyGet [("address1", Value.str "100 Congress Ave"),
        ("city", Value.str "Austin")] "state" "" = "" :=
  ⟨by decide,
    (claim3_assemble_address_template
      [("address1", Value.str "100 Congress Ave"),
        ("city", Value.str "Austin")]).2 "state" (by decide)⟩

/-- Claim C5: when the parsed geocode payload's candidate list is empty,
`geocode_address` returns `none` rather than raising, and the augmented
row receives `geocoded_address = ""` and `city_council_district = ""`. -/
theorem claim5_empty_candidates (svc : AustinDataService) (row : Row)
    (hguard : row.hasKey "city_council_district" = false)
    (hcand : (svc.geocodeResp (assemble_address row)).candidates = []) :
    geocode_address svc (assemble_address row) = none ∧
      ((add_city_council_district svc row).1).find? "geocoded_address" =
        some (Value.str "") ∧
      ((add_city_council_district svc row).1).find? "city_council_district" =
        some (Value.str "") := by
  have hgeo : geocode_address svc (assemble_address row) = none := by
    simp [geocode_address, hcand]
  have hadd : (add_city_council_district svc row).1 =
      (row.set "geocoded_address" (Value.str "")).set
        "city_council_district" (Value.str "") := by
    simp [add_city_council_district, hguard, hgeo]
  refine ⟨hgeo, ?_, ?_⟩
  · rw [hadd, Row.find?_set_ne _ _ _ _ (by decide)]
    exact Row.find?_set_self row _ _
  · rw [hadd]
    exact Row.find?_set_self _ _ _

/-- Witness for claim C5 with a service that finds no candidates. -/
theorem claim5_witness :
    Row.hasKey [("address1", Value.str "nowhere")]
        "city_council_district" = false ∧
      (emptySvc.geocodeResp
          (assemble_address [("address1", Value.str "nowhere")])).candidates =
        [] ∧
      ((add_city_council_district emptySvc
          [("address1", Value.str "nowhere")]).1).find? "geocoded_address" =
        some (Value.str "") :=
  ⟨by decide, by decide,
    (claim5_empty_candidates emptySvc [("address1", Value.str "nowhere")]
      (by decide) (by decide)).2.1⟩

/-- Claim C6: when geocoding succeeds but the district payload's feature
list is empty, `get_council_district` returns `none` and the row's
`city_council_district` is set to exactly the literal string
`"Unknown"`. -/
theorem claim6_empty_features (svc : AustinDataService) (row : Row)
    (c : Candidate) (cs : List Candidate)
    (hguard : row.hasKey "city_council_district" = false)
    (hcand : (svc.geocodeResp (assemble_address row)).candidates = c :: cs)
    (hfeat : (svc.districtResp c.location).features = []) :
    get_council_district svc c.location = none ∧
      ((add_city_council_district svc row).1).find? "city_council_district" =
        some (Value.str "Unknown") := by
  have hgeo : geocode_address svc (assemble_address row) =
      some ⟨c.address, c.location, c.score, c.extent⟩ := by
    simp [geocode_address, hcand]
  have hdist : get_council_district svc c.location = none := by
    simp [get_council_district, hfeat]
  have hadd : (add_city_council_district svc row).1 =
      (row.set "geocoded_address" (Value.str c.address)).set
        "city_council_district" (Value.str "Unknown") := by
    simp [add_city_council_district, hguard, hgeo, hdist]
  refine ⟨hdist, ?_⟩
  rw [hadd]
  exact Row.find?_set_self _ _ _

/-- Witness for claim C6 with a service that geocodes but finds no
district feature. -/
theorem claim6_witness :
    Row.hasKey ([] : Row) "city_council_district" = false ∧
      (svcNoDistrict.geocodeResp (assemble_address [])).candidates =
        [⟨"123 MAIN ST", ⟨1, 2⟩, 100, ⟨0, 0, 0, 0⟩⟩] ∧
      (svcNoDistrict.districtResp ⟨1, 2⟩).features = [] ∧
      ((add_city_council_district svcNoDistrict []).1).find?
          "city_council_district" = some (Value.str "Unknown") :=
  ⟨by decide, by decide, by decide,
    (claim6_empty_features svcNoDistrict []
      ⟨"123 MAIN ST", ⟨1, 2⟩, 100, ⟨0, 0, 0, 0⟩⟩ [] (by decide) (by decide)
      (by decide)).2⟩

/-- Claim C10: a row whose `city_council_district` key is present with
the empty-string value is skipped entirely: the row is returned
unchanged, no geocoding request is performed, and a row lacking a
`geocoded_address` key never receives one. -/
theorem claim10_skip_empty_string_district (svc : AustinDataService)
    (row : Row)
    (h : row.find? "city_council_district" = some (Value.str "")) :
    (add_city_council_district svc row).1 = row ∧
      (add_city_council_district svc row).2 = 0 ∧
      (row.hasKey "geocoded_address" = false →
        ((add_city_council_district svc row).1).hasKey "geocoded_address" =
          false) := by
  rw [add_ccd_skip svc row (Value.str "") h]
  exact ⟨rfl, rfl, fun hg => hg⟩

/-- Witness for claim C10 at a concrete row with an empty district. -/
theorem claim10_witness :
    Row.find? [("city_council_district", Value.str "")]
        "city_council_district" = some (Value.str "") ∧
      (add_city_council_district svcSeven
          [("city_council_district", Value.str "")]).2 = 0 :=
  ⟨by decide,
    (claim10_skip_empty_string_district svcSeven
      [("city_council_district", Value.str "")] (by decide)).2.1⟩

/-- Counterexample to claim C4 as stated: the district payload does
contain a feature with `COUNCIL_DISTRICT` 7, but it is not the first
feature, and the code stores the first feature's district 3, not 7. -/
theorem claim4_counterexample :
    (svcTwoFeatures.geocodeResp (assemble_address [])).candidates ≠ [] ∧
      (7 : Int) ∈
        ((svcTwoFeatures.districtResp ⟨1, 2⟩).features.map
          Feature.council_district) ∧
      ((add_city_council_district svcTwoFeatures []).1).find?
          "city_council_district" = some (Value.int 3) ∧
      some (Value.int 3) ≠ some (Value.int 7) := by
  refine ⟨by decide, by decide, ?_, by decide⟩
  decide

/-- Claim C4 (amended): for a row without a pre-existing
`city_council_district`, if the geocode payload has at least one
candidate and the first feature of the district payload for the first
candidate's location has `COUNCIL_DISTRICT` 7, then the row's
`geocoded_address` equals the first candidate's address string and its
`city_council_district` equals the integer 7 — which differs from the
string `"7"`. -/
theorem claim4_first_feature_seven (svc : AustinDataService) (row : Row)
    (c : Candidate) (cs : List Candidate) (f : Feature) (fs : List Feature)
    (hguard : row.hasKey "city_council_district" = false)
    (hcand : (svc.geocodeResp (assemble_address row)).candidates = c :: cs)
    (hfeat : (svc.districtResp c.location).features = f :: fs)
    (h7 : f.council_district = 7) :
    ((add_city_council_district svc row).1).find? "geocoded_address" =
        some (Value.str c.address) ∧
      ((add_city_council_district svc row).1).find? "city_council_district" =
        some (Value.int 7) ∧
      Value.int 7 ≠ Value.str "7" := by
  have hgeo : geocode_address svc (assemble_address row) =
      some ⟨c.address, c.location, c.score, c.extent⟩ := by
    simp [geocode_address, hcand]
  have hdist : get_council_district svc c.location = some 7 := by
    simp [get_council_district, hfeat, h7]
  have hadd : (add_city_council_district svc row).1 =
      (row.set "geocoded_address" (Value.str c.address)).set
        "city_council_district" (Value.int 7) := by
    simp [add_city_council_district, hguard, hgeo, hdist]
  refine ⟨?_, ?_, by decide⟩
  · rw [hadd, Row.find?_set_ne _ _ _ _ (by decide)]
    exact Row.find?_set_self row _ _
  · rw [hadd]
    exact Row.find?_set_self _ _ _

/-- Witness for amended claim C4 with a single district feature 7. -/
theorem claim4_witness :
    Row.hasKey ([] : Row) "city_council_district" = false ∧
      (svcSeven.geocodeResp (assemble_address [])).candidates =
        [⟨"123 MAIN ST", ⟨1, 2⟩, 100, ⟨0, 0, 0, 0⟩⟩] ∧
      (svcSeven.districtResp ⟨1, 2⟩).features = [⟨7⟩] ∧
      ((add_city_council_district svcSeven []).1).find?
          "city_council_district" = some (Value.int 7) :=
  ⟨by decide, by decide, by decide,
    (claim4_first_feature_seven svcSeven []
      ⟨"123 MAIN ST", ⟨1, 2⟩, 100, ⟨0, 0, 0, 0⟩⟩ [] ⟨7⟩ [] (by decide)
      (by decide) (by decide) (by decide)).2.1⟩

/-- Counterexample to claim C8 as stated: a row that already has a
`geocoded_address` value but no `city_council_district` does not keep
that value — the augmentation overwrites it (here with `""`, the
geocoding having found no candidate). -/
theorem claim8_counterexample :
    Row.find? [("geocoded_address", Value.str "old")] "geocoded_address" =
        some (Value.str "old") ∧
      ((add_city_council_district emptySvc
          [("geocoded_address", Value.str "old")]).1).find?
          "geocoded_address" = some (Value.str "") ∧
      Value.str "" ≠ Value.str "old" := by
  refine ⟨by decide, ?_, by decide⟩
  decide

/-- Claim C8 (amended): every column other than `geocoded_address`
keeps its exact value across `add_city_council_district` (in particular
a pre-existing `city_council_district` always does, via the skip guard),
while a pre-existing `geocoded_address` may be overwritten; and the only
keys the operation may add are `geocoded_address` and
`city_council_district`. -/
theorem claim8_frame (svc : AustinDataService) (row : Row) :
    (∀ k v, row.find? k = some v → k ≠ "geocoded_address" →
        ((add_city_council_district svc row).1).find? k = some v) ∧
      ∀ k, ((add_city_council_district svc row).1).hasKey k = true →
        row.hasKey k = true ∨ k = "geocoded_address" ∨
          k = "city_council_district" := by
  by_cases hguard : row.hasKey "city_council_district" = true
  · have hadd : (add_city_council_district svc row).1 = row := by
      simp [add_city_council_district, hguard]
    rw [hadd]
    exact ⟨fun _ _ h _ => h, fun _ h => Or.inl h⟩
  · have hguard' : row.hasKey "city_council_district" = false := by
      simpa using hguard
    have main : ∀ w w' : Value,
        (∀ k v, row.find? k = some v → k ≠ "geocoded_address" →
          ((row.set "geocoded_address" w).set "city_council_district"
            w').find? k = some v) ∧
        ∀ k, ((row.set "geocoded_address" w).set "city_council_district"
            w').hasKey k = true →
          row.hasKey k = true ∨ k = "geocoded_address" ∨
            k = "city_council_district" := by
      intro w w'
      constructor
      · intro k v hkv hkga
        have hkcd : ¬k = "city_council_district" := by
          intro he
          rw [he] at hkv
          rw [Row.hasKey, hkv] at hguard'
          simp at hguard'
        rw [Row.find?_set, if_neg hkcd, Row.find?_set, if_neg hkga]
        exact hkv
      · intro k hk
        by_cases hkcd : k = "city_council_district"
        · exact Or.inr (Or.inr hkcd)
        by_cases hkga : k = "geocoded_address"
        · exact Or.inr (Or.inl hkga)
        rw [Row.hasKey, Row.find?_set, if_neg hkcd, Row.find?_set,
          if_neg hkga] at hk
        exact Or.inl hk
    cases hg : geocode_address svc (assemble_address row) with
    | none =>
        have hadd : (add_city_council_district svc row).1 =
            (row.set "geocoded_address" (Value.str "")).set
              "city_council_district" (Value.str "") := by
          simp [add_city_council_district, hguard', hg]
        rw [hadd]
        exact main _ _
    | some g =>
        have hadd : (add_city_council_district svc row).1 =
            (row.set "geocoded_address" (Value.str g.address)).set
              "city_council_district"
              (match get_council_district svc g.location with
               | some d => Value.int d
               | none => Value.str "Unknown") := by
          simp [add_city_council_district, hguard', hg]
        rw [hadd]
        exact main _ _

/-- Witness for amended claim C8: the untouched `first_name` column
survives augmentation. -/
theorem claim8_witness :
    Row.find? [("first_name", Value.str "Ada")] "first_name" =
        some (Value.str "Ada") ∧
      ((add_city_council_district emptySvc
          [("first_name", Value.str "Ada")]).1).find? "first_name" =
        some (Value.str "Ada") :=
  ⟨by decide,
    (claim8_frame emptySvc [("first_name", Value.str "Ada")]).1 "first_name"
      (Value.str "Ada") (by decide) (by decide)⟩

/-- Counterexample to claim C2 as stated: a non-empty input that already
has a `city_council_district` column is skipped row by row, and the
written output's columns are the input columns unchanged — not the input
columns followed by the two appended columns. -/
theorem claim2_counterexample :
    ([[("city_council_district", Value.str "5")]] : List Row) ≠ [] ∧
      outputFieldnames emptySvc 30
          [[("city_council_district", Value.str "5")]] =
        ["city_council_district"] ∧
      (["city_council_district"] : List String) ≠
        ["city_council_district"] ++
          ["geocoded_address", "city_council_district"] := by
  refine ⟨by decide, ?_, by decide⟩
  decide

/-- Claim C2 (amended): for every non-empty input whose columns include
neither `geocoded_address` nor `city_council_district`, the output has
the same number of rows as the input, in the same order (row `i` is the
augmentation of input row `i`), and its column set and order are exactly
the input's original columns in their original order followed by
`geocoded_address` and then `city_council_district`, uniformly across
rows. -/
theorem claim2_output_shape (svc : AustinDataService) (interval : ℚ)
    (cols : List String) (data : List Row)
    (hne : data ≠ [])
    (hcols : ∀ r ∈ data, Row.keys r = cols)
    (hga : "geocoded_address" ∉ cols)
    (hcd : "city_council_district" ∉ cols) :
    mainRows svc interval data =
        data.map (fun r => (add_city_council_district svc r).1) ∧
      (mainRows svc interval data).length = data.length ∧
      outputFieldnames svc interval data =
        cols ++ ["geocoded_address", "city_council_district"] ∧
      ∀ r ∈ mainRows svc interval data,
        Row.keys r = cols ++ ["geocoded_address", "city_council_district"] := by
  have hmap : mainRows svc interval data =
      data.map (fun r => (add_city_council_district svc r).1) :=
    mainLoop_rows svc interval data 0
  have hkeys : ∀ r ∈ data,
      Row.keys (add_city_council_district svc r).1 =
        cols ++ ["geocoded_address", "city_council_district"] := by
    intro r hr
    have hk := hcols r hr
    have := keys_add_ccd svc r (by rw [hk]; exact hga) (by rw [hk]; exact hcd)
    rw [this, hk]
  refine ⟨hmap, ?_, ?_, ?_⟩
  · rw [hmap, List.length_map]
  · obtain ⟨r0, rest, rfl⟩ := List.exists_cons_of_ne_nil hne
    rw [outputFieldnames, hmap]
    simp only [List.map_cons, List.headD_cons]
    exact hkeys r0 (List.mem_cons_self r0 rest)
  · intro r hr
    rw [hmap] at hr
    obtain ⟨r0, hr0, rfl⟩ := List.mem_map.1 hr
    exact hkeys r0 hr0

/-- Witness for amended claim C2 on a one-row, one-column input. -/
theorem claim2_witness :
    ([[("first_name", Value.str "Ada")]] : List Row) ≠ [] ∧
      (∀ r ∈ ([[("first_name", Value.str "Ada")]] : List Row),
        Row.keys r = ["first_name"]) ∧
      outputFieldnames emptySvc defaultInterval
          [[("first_name", Value.str "Ada")]] =
        ["first_name"] ++ ["geocoded_address", "city_council_district"] :=
  ⟨by decide, by decide,
    (claim2_output_shape emptySvc defaultInterval ["first_name"]
      [[("first_name", Value.str "Ada")]] (by decide) (by decide)
      (by decide) (by decide)).2.2.1⟩

/-- Claim C9: in the loop's trace, processing of row `i` occupies
position `2 * i` and is immediately followed by a `time.sleep` of the
configured interval, before the processing of row `i + 1` at position
`2 * (i + 1)`  — whether the row was augmented or skipped, and whatever
the service returned.  The embedding fixes `defaultInterval = 30` as the
argparse default. -/
theorem claim9_sleep_after_each_row (svc : AustinDataService)
    (interval : ℚ) (data : List Row) (i : Nat) (h : i < data.length) :
    (mainTrace svc interval data).get? (2 * i) =
        some (Event.processRow i) ∧
      (mainTrace svc interval data).get? (2 * i + 1) =
        some (Event.sleep interval) := by
  have := mainLoop_trace_get? svc interval data 0 i h
  simpa [mainTrace] using this

/-- Witness for claim C9 on a one-row input at the default interval. -/
theorem claim9_witness :
    0 < ([[("first_name", Value.str "Grace")]] : List Row).length ∧
      (mainTrace emptySvc defaultInterval
          [[("first_name", Value.str "Grace")]]).get? (2 * 0) =
        some (Event.processRow 0) ∧
      (mainTrace emptySvc defaultInterval
          [[("first_name", Value.str "Grace")]]).get? (2 * 0 + 1) =
        some (Event.sleep defaultInterval) :=
  ⟨by decide,
    (claim9_sleep_after_each_row emptySvc defaultInterval
      [[("first_name", Value.str "Grace")]] 0 (by decide)).1,
    (claim9_sleep_after_each_row emptySvc defaultInterval
      [[("first_name", Value.str "Grace")]] 0 (by decide)).2⟩

/-- Claim C7: `geocode_address` warns exactly when the body does not
begin with the token `callback(`, and — warned or not — the text handed
to the JSON parser is the substring of the body strictly between the
first opening parenthesis and the final two characters. -/
theorem claim7_jsonp_strip (body pre post : List Char)
    (hsplit : body = pre ++ '(' :: post)
    (hpre : '(' ∉ pre) :
    ((geocodeParse body).1 = true ↔
        ¬callbackToken.isPrefixOf body = true) ∧
      (geocodeParse body).2 =
        some ((body.drop (pre.length + 1)).take
          (body.length - (pre.length + 3))) := by
  constructor
  · show (!callbackToken.isPrefixOf body) = true ↔
      ¬callbackToken.isPrefixOf body = true
    cases hb : callbackToken.isPrefixOf body <;> simp [hb]
  · have h1 : jsonpStrip body = some (post.take (post.length - 2)) := by
      rw [hsplit]
      exact jsonpStrip_split pre post hpre
    have h2 : body.drop (pre.length + 1) = post := by
      rw [hsplit,
        show pre ++ '(' :: post = (pre ++ ['(']) ++ post by simp,
        show pre.length + 1 = (pre ++ ['(']).length by simp]
      exact List.drop_left _ _
    have h3 : body.length - (pre.length + 3) = post.length - 2 := by
      rw [hsplit]
      simp only [List.length_append, List.length_cons]
      omega
    show jsonpStrip body = _
    rw [h1, h2, h3]

/-- Witness for claim C7 on the body `callback([1]);`. -/
theorem claim7_witness :
    "callback([1]);".toList =
        "callback".toList ++ '(' :: "[1]);".toList ∧
      '(' ∉ "callback".toList ∧
      (geocodeParse "callback([1]);".toList).2 =
        some (("callback([1]);".toList.drop
            ("callback".toList.length + 1)).take
          ("callback([1]);".toList.length -
            ("callback".toList.length + 3))) :=
  ⟨by decide, by decide,
    (claim7_jsonp_strip "callback([1]);".toList "callback".toList
      "[1]);".toList (by decide) (by decide)).2⟩
